import Mathlib

/-
Verification of the `ion-modal` overlay component
(src/core/src/components/modal/modal.tsx) against its specification.

The component is embedded shallowly: the modal's reactive state is a record,
`present` / `dismiss` / the event listeners become pure functions returning
the new state together with the observable effects (lifecycle events emitted,
attach/detach calls issued, animation builders run).  The shared overlay
helpers from `utils/overlays` and the framework delegate are not part of the
sources; where their behaviour decides a claim they are modelled from the
spec, and each such definition says so in its doc comment.
-/

namespace Ionic

/-- A value stored in a props bag or carried as an event detail payload. -/
inductive Val
  | str (s : String)
  | num (n : Int)
  | elem (id : Nat)
  deriving DecidableEq, Repr

/-- A props bag, as a partial map from keys to values (JS object). -/
abbrev Props := String → Option Val

/-- The platform mode (`"ios"` or `"md"`), from the `mode` prop. -/
inductive Mode
  | ios
  | md
  deriving DecidableEq, Repr

/-- An animation builder: the four builders imported by modal.tsx plus
caller-supplied custom builders (`enterAnimation` / `leaveAnimation`). -/
inductive AnimationBuilder
  | iosEnter
  | iosLeave
  | mdEnter
  | mdLeave
  | custom (id : Nat)
  deriving DecidableEq, Repr

/-- The four overlay lifecycle events of the instance; the dismiss events
carry the `{data, role}` payload. -/
inductive LifecycleEvent
  | willPresent
  | didPresent
  | willDismiss (data : Option Val) (role : Option String)
  | didDismiss (data : Option Val) (role : Option String)
  deriving DecidableEq, Repr

/-- An opaque mounted-content handle (`usersElement`), identified by the host
element that owns it. -/
inductive Handle
  | mk (host : Nat)
  deriving DecidableEq, Repr

/-- The modal instance: its props and its mutable fields (`presented`,
`usersElement`).  `containerPresent` models whether
`this.el.querySelector(".modal-wrapper")` finds the container at call time. -/
structure Modal where
  el : Nat
  mode : Mode
  overlayIndex : Int
  animated : Bool := true
  backdropDismiss : Bool := true
  showBackdrop : Bool := true
  keyboardClose : Bool := true
  enterAnimation : Option AnimationBuilder := none
  leaveAnimation : Option AnimationBuilder := none
  componentProps : Props := fun _ => none
  containerPresent : Bool := true
  presented : Bool := false
  usersElement : Option Handle := none

/-- The error thrown by `present()` when the container is missing
(`throw new Error("container is undefined")`). -/
inductive PresentError
  | mountError
  deriving DecidableEq, Repr

/-- A call to `attachComponent`: the marker class list and the props bag
passed to the framework delegate. -/
structure AttachCall where
  classes : List String
  props : Props

/-- The merged props bag built inside `present()`:
`{...this.componentProps, modal: this.el}` — the spread first, then the
binding of the host element under the key `"modal"`. -/
def mergedProps (m : Modal) : Props :=
  fun k => if k = "modal" then some (Val.elem m.el) else m.componentProps k

/-- The merged props bag as the spec words it:
`{...componentProps, hostRef: <this overlay's element>}` — the host element
bound under the key `"hostRef"`.  Kept separate to compare with
`mergedProps`, which is read off the source. -/
def mergedPropsSpec (m : Modal) : Props :=
  fun k => if k = "hostRef" then some (Val.elem m.el) else m.componentProps k

/-- Modelled from the spec: the animation selection performed by the shared
`present`/`dismiss` helpers of `utils/overlays` (not under src/).  The
caller-supplied override takes precedence; otherwise the themed builder for
the mode is used (§4.2 of the spec). -/
def selectAnimation (override : Option AnimationBuilder) (mode : Mode)
    (iosB mdB : AnimationBuilder) : AnimationBuilder :=
  match override with
  | some b => b
  | none =>
    match mode with
    | Mode.ios => iosB
    | Mode.md => mdB

/-- The enter builder `present()` hands to the overlay helper: the
`enterAnimation` override, else `iosEnterAnimation` / `mdEnterAnimation` by
mode. -/
def Modal.enterBuilder (m : Modal) : AnimationBuilder :=
  selectAnimation m.enterAnimation m.mode AnimationBuilder.iosEnter AnimationBuilder.mdEnter

/-- The leave builder `dismiss()` hands to the overlay helper: the
`leaveAnimation` override, else `iosLeaveAnimation` / `mdLeaveAnimation` by
mode. -/
def Modal.leaveBuilder (m : Modal) : AnimationBuilder :=
  selectAnimation m.leaveAnimation m.mode AnimationBuilder.iosLeave AnimationBuilder.mdLeave

/-- The observable outcome of a successful `present()` call: the new modal
state, the lifecycle events emitted in order, the `attachComponent` call
issued (none when the idempotent guard short-circuited), and the animation
builder actually run (none when the guard short-circuited or
`animated = false`). -/
structure PresentOk where
  modal : Modal
  events : List LifecycleEvent
  attach : Option AttachCall
  animationRan : Option AnimationBuilder

/-- `Modal.present`, from modal.tsx lines 158–174: if `presented` the call is
a no-op; otherwise the container is looked up and its absence throws;
otherwise the content is attached with `["ion-page"]` and the merged props,
and the overlay helper runs.  The helper itself (`present` of
`utils/overlays`, not under src/) is modelled from the spec §4.1: it emits
`WillPresent`, runs the selected enter animation (skipped entirely when
`animated = false`), sets `presented := true` and emits `DidPresent`. -/
def Modal.present (m : Modal) : Except PresentError PresentOk :=
  if m.presented then
    Except.ok ⟨m, [], none, none⟩
  else if m.containerPresent = false then
    Except.error PresentError.mountError
  else
    let call : AttachCall := ⟨["ion-page"], mergedProps m⟩
    let mounted : Modal := { m with usersElement := some (Handle.mk m.el) }
    let ran : Option AnimationBuilder :=
      if m.animated then some m.enterBuilder else none
    Except.ok ⟨{ mounted with presented := true },
      [LifecycleEvent.willPresent, LifecycleEvent.didPresent], some call, ran⟩

/-- The observable outcome of a `dismiss()` call: the new modal state, the
boolean the method returns, the lifecycle events emitted in order, whether
`detachComponent` was invoked, and the animation builder actually run. -/
structure DismissResult where
  modal : Modal
  returned : Bool
  events : List LifecycleEvent
  detached : Bool
  animationRan : Option AnimationBuilder

/-- `Modal.dismiss`, from modal.tsx lines 179–186, composed with the overlay
helper `dismiss` of `utils/overlays` (not under src/), modelled from the
spec §4.1: when the instance is not presented it returns `false` and emits
nothing; otherwise it emits `WillDismiss{data, role}`, runs the selected
leave animation (skipped when `animated = false`), sets `presented := false`
and emits `DidDismiss{data, role}`, returning `true`.  The wrapper in
modal.tsx then calls `detachComponent` exactly when the helper returned
`true`, releasing `usersElement`. -/
def Modal.dismiss (m : Modal) (data : Option Val) (role : Option String) :
    DismissResult :=
  if m.presented = false then
    ⟨m, false, [], false, none⟩
  else
    let ran : Option AnimationBuilder :=
      if m.animated then some m.leaveBuilder else none
    ⟨{ m with presented := false, usersElement := none }, true,
      [LifecycleEvent.willDismiss data role, LifecycleEvent.didDismiss data role],
      true, ran⟩

/-- A DOM `CustomEvent`: its type name, dispatch flags and detail payload. -/
structure CustomEvent where
  type : String
  bubbles : Bool
  cancelable : Bool
  detail : Option Val
  deriving DecidableEq, Repr

/-- `LIFECYCLE_MAP` from modal.tsx lines 229–234: the fixed name mapping from
the modal lifecycle event names to the content-facing view event names. -/
def LIFECYCLE_MAP (eventType : String) : Option String :=
  if eventType = "ionModalDidPresent" then some "ionViewDidEnter"
  else if eventType = "ionModalWillPresent" then some "ionViewWillEnter"
  else if eventType = "ionModalWillDismiss" then some "ionViewWillDismiss"
  else if eventType = "ionModalDidDismiss" then some "ionViewDidDismiss"
  else none

/-- An event dispatched to a mounted content handle. -/
structure Dispatched where
  target : Handle
  event : CustomEvent
  deriving DecidableEq, Repr

/-- `Modal.lifecycle`, from modal.tsx lines 142–153: re-dispatches the
incoming lifecycle event to `usersElement` under the `LIFECYCLE_MAP` name,
non-bubbling, non-cancelable, with the same detail; a no-op when no content
is mounted or the name is not in the map. -/
def Modal.lifecycle (m : Modal) (modalEvent : CustomEvent) : Option Dispatched :=
  match m.usersElement, LIFECYCLE_MAP modalEvent.type with
  | some el, some name =>
    some ⟨el, ⟨name, false, false, modalEvent.detail⟩⟩
  | _, _ => none

/-- The `BACKDROP` role sentinel from `utils/overlays`. -/
def BACKDROP : String := "backdrop"

/-- The props the `render()` method puts on the `ion-backdrop` child
(modal.tsx line 223). -/
structure BackdropProps where
  visible : Bool
  tappable : Bool
  deriving DecidableEq, Repr

/-- The backdrop as rendered: `visible={this.showBackdrop}`,
`tappable={this.backdropDismiss}`. -/
def Modal.renderBackdrop (m : Modal) : BackdropProps :=
  ⟨m.showBackdrop, m.backdropDismiss⟩

/-- `Modal.onBackdropTap`, from modal.tsx lines 133–136: the listener for
`ionBackdropTap`, which calls `dismiss(undefined, BACKDROP)`. -/
def Modal.onBackdropTap (m : Modal) : DismissResult :=
  m.dismiss none (some BACKDROP)

/-- Modelled from the spec: the `ion-backdrop` component itself (not under
src/) fires its `ionBackdropTap` event only when rendered tappable (§4.5);
a tap on a non-tappable backdrop therefore never reaches the listener. -/
def Modal.backdropTap (m : Modal) : Option DismissResult :=
  if m.renderBackdrop.tappable then some m.onBackdropTap else none

/-- A `UIEvent` as the `ionDismiss` listener sees it: whether its
propagation has been stopped and its default action prevented. -/
structure UIEvent where
  propagationStopped : Bool := false
  defaultPrevented : Bool := false
  deriving DecidableEq, Repr

/-- `Modal.onDismiss`, from modal.tsx lines 125–131: the `ionDismiss`
listener stops propagation, prevents default and calls `this.dismiss()`
with no data and no role. -/
def Modal.onDismiss (m : Modal) (ev : UIEvent) : UIEvent × DismissResult :=
  ({ ev with propagationStopped := true, defaultPrevented := true },
    m.dismiss none none)

/-- The host data returned by `hostData()` (modal.tsx lines 206–217),
restricted to the style part the claims are about. -/
structure HostData where
  noRouter : Bool
  zIndex : Int
  deriving DecidableEq, Repr

/-- `Modal.hostData`: the host carries `zIndex: 20000 + this.overlayIndex`. -/
def Modal.hostData (m : Modal) : HostData :=
  ⟨true, 20000 + m.overlayIndex⟩

/-- A concrete modal instance used by witnesses and counterexamples. -/
def sampleModal : Modal :=
  { el := 0, mode := Mode.ios, overlayIndex := 0 }

end Ionic

namespace Ionic

/-! Helper lemmas computing the two branches of `present` and `dismiss`. -/

theorem present_ok_eq (m : Modal)
    (h1 : m.presented = false) (h2 : m.containerPresent = true) :
    m.present = Except.ok
      ⟨{ m with usersElement := some (Handle.mk m.el), presented := true },
        [LifecycleEvent.willPresent, LifecycleEvent.didPresent],
        some ⟨["ion-page"], mergedProps m⟩,
        if m.animated then some m.enterBuilder else none⟩ := by
  simp [Modal.present, h1, h2]

theorem present_noop_eq (m : Modal) (h : m.presented = true) :
    m.present = Except.ok ⟨m, [], none, none⟩ := by
  simp [Modal.present, h]

theorem dismiss_noop_eq (m : Modal) (data : Option Val) (role : Option String)
    (h : m.presented = false) :
    m.dismiss data role = ⟨m, false, [], false, none⟩ := by
  simp [Modal.dismiss, h]

theorem dismiss_ok_eq (m : Modal) (data : Option Val) (role : Option String)
    (h : m.presented = true) :
    m.dismiss data role =
      ⟨{ m with presented := false, usersElement := none }, true,
        [LifecycleEvent.willDismiss data role, LifecycleEvent.didDismiss data role],
        true, if m.animated then some m.leaveBuilder else none⟩ := by
  simp [Modal.dismiss, h]

end Ionic

namespace Ionic

/-- C1: a `present()` call while the instance is not idle (already presented)
returns immediately as a no-op — same state, no events, no mount, no
animation — and a first `present()` from the idle state emits exactly one
WillPresent/DidPresent pair, after which a second call is that no-op; hence
two calls in a row produce exactly one pair. -/
theorem present_twice_single_pair (m : Modal)
    (h1 : m.presented = false) (h2 : m.containerPresent = true) :
    (∀ m2 : Modal, m2.presented = true →
      m2.present = Except.ok ⟨m2, [], none, none⟩) ∧
    ∃ r : PresentOk, m.present = Except.ok r ∧
      r.events = [LifecycleEvent.willPresent, LifecycleEvent.didPresent] ∧
      r.modal.present = Except.ok ⟨r.modal, [], none, none⟩ := by
  refine ⟨fun m2 h => present_noop_eq m2 h, ?_⟩
  refine ⟨_, present_ok_eq m h1 h2, rfl, ?_⟩
  exact present_noop_eq _ rfl

/-- C1 witness: on a concrete idle instance the two-calls-in-a-row behaviour
is realised. -/
theorem present_twice_single_pair_witness :
    ∃ r : PresentOk, sampleModal.present = Except.ok r ∧
      r.events = [LifecycleEvent.willPresent, LifecycleEvent.didPresent] ∧
      r.modal.present = Except.ok ⟨r.modal, [], none, none⟩ :=
  (present_twice_single_pair sampleModal rfl rfl).2

/-- C2: when the container surface cannot be located on an idle instance,
`present()` fails with the mount error; the functional result carries no new
state, no attach call and no events, so nothing is mounted, no lifecycle
event fires and `presented` stays false. -/
theorem present_container_missing (m : Modal)
    (h1 : m.presented = false) (h2 : m.containerPresent = false) :
    m.present = Except.error PresentError.mountError := by
  simp [Modal.present, h1, h2]

/-- C2 witness: a concrete idle instance with a missing container. -/
theorem present_container_missing_witness :
    ({ sampleModal with containerPresent := false } : Modal).present =
      Except.error PresentError.mountError :=
  present_container_missing { sampleModal with containerPresent := false } rfl rfl

/-- C3: `dismiss` on a non-presented instance returns false with no events
and no detach; on a presented instance it returns true; and in every case
`detachComponent` is invoked exactly when the returned boolean is true. -/
theorem dismiss_guard_and_detach (m : Modal) (data : Option Val)
    (role : Option String) :
    ((m.dismiss data role).detached = (m.dismiss data role).returned) ∧
    (m.presented = false → m.dismiss data role = ⟨m, false, [], false, none⟩) ∧
    (m.presented = true → (m.dismiss data role).returned = true ∧
      (m.dismiss data role).events =
        [LifecycleEvent.willDismiss data role,
         LifecycleEvent.didDismiss data role] ∧
      (m.dismiss data role).detached = true) := by
  cases hp : m.presented
  · refine ⟨?_, fun _ => dismiss_noop_eq m data role hp, fun h => by simp [hp] at h⟩
    rw [dismiss_noop_eq m data role hp]
  · refine ⟨?_, fun h => by simp [hp] at h, fun _ => ?_⟩
    · rw [dismiss_ok_eq m data role hp]
    · rw [dismiss_ok_eq m data role hp]
      exact ⟨rfl, rfl, rfl⟩

/-- C3 witness: double-dismiss on a concrete idle instance is a no-op, and a
concrete presented instance dismisses with detach. -/
theorem dismiss_guard_and_detach_witness :
    sampleModal.dismiss none none = ⟨sampleModal, false, [], false, none⟩ ∧
    (({ sampleModal with presented := true } : Modal).dismiss none none).returned
      = true :=
  ⟨(dismiss_guard_and_detach sampleModal none none).2.1 rfl,
   ((dismiss_guard_and_detach { sampleModal with presented := true } none none).2.2
      rfl).1⟩

end Ionic

namespace Ionic

/-- The state after a successful `present()`, when one occurred. -/
def afterPresent (m : Modal) : Option Modal :=
  match m.present with
  | Except.ok r => some r.modal
  | Except.error _ => none

/-- The events a `present()` call emits, when it does not throw. -/
def presentEvents (m : Modal) : Option (List LifecycleEvent) :=
  match m.present with
  | Except.ok r => some r.events
  | Except.error _ => none

/-- The state after a present-then-dismiss round trip, when the present
succeeded. -/
def afterRoundTrip (m : Modal) : Option Modal :=
  (afterPresent m).map fun m1 => (m1.dismiss none none).modal

/-- C4 counterexample: on a concrete instance a successful present-then-
dismiss round trip leaves `presented = false` with the handle released, and a
subsequent `present()` on that same instance does not fail — it succeeds,
emitting a fresh WillPresent/DidPresent pair and re-presenting the modal.
The code admits a transition out of the dismissed state. -/
theorem dismissed_terminal_cex :
    ((afterRoundTrip sampleModal).map fun m2 => m2.presented) = some false ∧
    ((afterRoundTrip sampleModal).map fun m2 => m2.usersElement) = some none ∧
    ((afterRoundTrip sampleModal).bind presentEvents) =
      some [LifecycleEvent.willPresent, LifecycleEvent.didPresent] ∧
    (((afterRoundTrip sampleModal).bind afterPresent).map fun m3 => m3.presented)
      = some true := by
  decide

/-- C4 amended: after a successful present-then-dismiss round trip the
mounted content handle is released (`usersElement = none`) and the instance
returns to the idle configuration, from which a subsequent `present()` on the
same instance succeeds again with a fresh WillPresent/DidPresent pair — the
dismissed state is not terminal; it coincides with idle. -/
theorem round_trip_represent (m : Modal)
    (h1 : m.presented = false) (h2 : m.containerPresent = true) :
    ∃ r : PresentOk, m.present = Except.ok r ∧
      (r.modal.dismiss none none).returned = true ∧
      ((r.modal.dismiss none none).modal).presented = false ∧
      ((r.modal.dismiss none none).modal).usersElement = none ∧
      ∃ r2 : PresentOk,
        ((r.modal.dismiss none none).modal).present = Except.ok r2 ∧
        r2.events = [LifecycleEvent.willPresent, LifecycleEvent.didPresent] ∧
        r2.modal.presented = true := by
  refine ⟨_, present_ok_eq m h1 h2, ?_⟩
  rw [dismiss_ok_eq _ none none rfl]
  refine ⟨rfl, rfl, rfl, _, present_ok_eq _ rfl h2, rfl, rfl⟩

/-- C4 amended witness: the round trip and re-present on a concrete
instance. -/
theorem round_trip_represent_witness :
    ∃ r : PresentOk, sampleModal.present = Except.ok r ∧
      (r.modal.dismiss none none).returned = true ∧
      ((r.modal.dismiss none none).modal).presented = false ∧
      ((r.modal.dismiss none none).modal).usersElement = none ∧
      ∃ r2 : PresentOk,
        ((r.modal.dismiss none none).modal).present = Except.ok r2 ∧
        r2.events = [LifecycleEvent.willPresent, LifecycleEvent.didPresent] ∧
        r2.modal.presented = true :=
  round_trip_represent sampleModal rfl rfl

/-- C5: with content mounted, each of the four lifecycle events is
re-dispatched to the mounted handle under the fixed name mapping, with
`bubbles = false`, `cancelable = false` and the original detail payload; with
no content mounted (or an unmapped event name) the bridge is a no-op. -/
theorem lifecycle_bridge (m : Modal) (e : CustomEvent) (h : Handle)
    (hm : m.usersElement = some h) :
    (e.type = "ionModalWillPresent" →
      m.lifecycle e = some ⟨h, ⟨"ionViewWillEnter", false, false, e.detail⟩⟩) ∧
    (e.type = "ionModalDidPresent" →
      m.lifecycle e = some ⟨h, ⟨"ionViewDidEnter", false, false, e.detail⟩⟩) ∧
    (e.type = "ionModalWillDismiss" →
      m.lifecycle e = some ⟨h, ⟨"ionViewWillDismiss", false, false, e.detail⟩⟩) ∧
    (e.type = "ionModalDidDismiss" →
      m.lifecycle e = some ⟨h, ⟨"ionViewDidDismiss", false, false, e.detail⟩⟩) ∧
    (LIFECYCLE_MAP e.type = none → m.lifecycle e = none) ∧
    (∀ m2 : Modal, m2.usersElement = none → m2.lifecycle e = none) := by
  refine ⟨?_, ?_, ?_, ?_, ?_, ?_⟩
  · intro ht; simp [Modal.lifecycle, LIFECYCLE_MAP, hm, ht]
  · intro ht; simp [Modal.lifecycle, LIFECYCLE_MAP, hm, ht]
  · intro ht; simp [Modal.lifecycle, LIFECYCLE_MAP, hm, ht]
  · intro ht; simp [Modal.lifecycle, LIFECYCLE_MAP, hm, ht]
  · intro ht; simp [Modal.lifecycle, hm, ht]
  · intro m2 hn; simp [Modal.lifecycle, hn]

/-- C5 witness: a concrete mounted instance re-dispatches a concrete
WillPresent event, payload preserved. -/
theorem lifecycle_bridge_witness :
    ({ sampleModal with usersElement := some (Handle.mk 0) } : Modal).lifecycle
        ⟨"ionModalWillPresent", true, true, some (Val.num 1)⟩ =
      some ⟨Handle.mk 0, ⟨"ionViewWillEnter", false, false, some (Val.num 1)⟩⟩ :=
  (lifecycle_bridge { sampleModal with usersElement := some (Handle.mk 0) }
    ⟨"ionModalWillPresent", true, true, some (Val.num 1)⟩ (Handle.mk 0) rfl).1 rfl

/-- C6: the backdrop renders tappable iff `backdropDismiss` and visible iff
`showBackdrop`; a tap on a tappable backdrop invokes
`dismiss(undefined, "backdrop")` through the ordinary guard, so with
`backdropDismiss = false` no tap reaches the listener, and when not presented
the tap dismisses nothing and emits nothing. -/
theorem backdrop_behavior (m : Modal) :
    m.renderBackdrop.tappable = m.backdropDismiss ∧
    m.renderBackdrop.visible = m.showBackdrop ∧
    (m.backdropDismiss = true →
      m.backdropTap = some (m.dismiss none (some "backdrop"))) ∧
    (m.backdropDismiss = false → m.backdropTap = none) ∧
    (m.backdropDismiss = true → m.presented = false →
      m.backdropTap = some ⟨m, false, [], false, none⟩) := by
  refine ⟨rfl, rfl, ?_, ?_, ?_⟩
  · intro hb
    simp [Modal.backdropTap, Modal.renderBackdrop, Modal.onBackdropTap, BACKDROP, hb]
  · intro hb
    simp [Modal.backdropTap, Modal.renderBackdrop, hb]
  · intro hb hp
    simp [Modal.backdropTap, Modal.renderBackdrop, Modal.onBackdropTap, hb,
      dismiss_noop_eq m none (some BACKDROP) hp]

/-- C6 witness: a non-tappable concrete backdrop swallows the tap, and a
tappable one on an unpresented concrete instance dismisses nothing. -/
theorem backdrop_behavior_witness :
    ({ sampleModal with backdropDismiss := false } : Modal).backdropTap = none ∧
    sampleModal.backdropTap = some ⟨sampleModal, false, [], false, none⟩ :=
  ⟨(backdrop_behavior { sampleModal with backdropDismiss := false }).2.2.2.1 rfl,
   (backdrop_behavior sampleModal).2.2.2.2 rfl rfl⟩

end Ionic

namespace Ionic

/-- C7: animation selection is a pure function of mode and direction
(ios maps to the ios builders, md to the md builders), a caller-supplied
override always wins, and with `animated = false` a present from idle still
emits WillPresent then DidPresent with `presented = true` while running no
animation at all. -/
theorem animation_selection_and_skip (m : Modal) :
    (m.enterAnimation = none → m.mode = Mode.ios →
      m.enterBuilder = AnimationBuilder.iosEnter) ∧
    (m.enterAnimation = none → m.mode = Mode.md →
      m.enterBuilder = AnimationBuilder.mdEnter) ∧
    (m.leaveAnimation = none → m.mode = Mode.ios →
      m.leaveBuilder = AnimationBuilder.iosLeave) ∧
    (m.leaveAnimation = none → m.mode = Mode.md →
      m.leaveBuilder = AnimationBuilder.mdLeave) ∧
    (∀ b : AnimationBuilder, m.enterAnimation = some b → m.enterBuilder = b) ∧
    (∀ b : AnimationBuilder, m.leaveAnimation = some b → m.leaveBuilder = b) ∧
    (m.animated = false → m.presented = false → m.containerPresent = true →
      ∃ r : PresentOk, m.present = Except.ok r ∧
        r.events = [LifecycleEvent.willPresent, LifecycleEvent.didPresent] ∧
        r.animationRan = none ∧ r.modal.presented = true) := by
  refine ⟨?_, ?_, ?_, ?_, ?_, ?_, ?_⟩
  · intro ho hmode; simp [Modal.enterBuilder, selectAnimation, ho, hmode]
  · intro ho hmode; simp [Modal.enterBuilder, selectAnimation, ho, hmode]
  · intro ho hmode; simp [Modal.leaveBuilder, selectAnimation, ho, hmode]
  · intro ho hmode; simp [Modal.leaveBuilder, selectAnimation, ho, hmode]
  · intro b ho; simp [Modal.enterBuilder, selectAnimation, ho]
  · intro b ho; simp [Modal.leaveBuilder, selectAnimation, ho]
  · intro ha h1 h2
    refine ⟨_, present_ok_eq m h1 h2, rfl, ?_, rfl⟩
    simp [ha]

/-- C7 witness: a concrete ThemeA instance with `animated = false` presents
instantaneously, running no animation. -/
theorem animation_selection_and_skip_witness :
    sampleModal.enterBuilder = AnimationBuilder.iosEnter ∧
    ∃ r : PresentOk,
      ({ sampleModal with animated := false } : Modal).present = Except.ok r ∧
      r.events = [LifecycleEvent.willPresent, LifecycleEvent.didPresent] ∧
      r.animationRan = none ∧ r.modal.presented = true :=
  ⟨(animation_selection_and_skip sampleModal).1 rfl rfl,
   (animation_selection_and_skip
      { sampleModal with animated := false }).2.2.2.2.2.2 rfl rfl rfl⟩

/-- The props bag handed to `attachComponent` by a `present()` call, when the
call reached the mount. -/
def attachProps (m : Modal) : Option Props :=
  match m.present with
  | Except.ok r => r.attach.map fun c => c.props
  | Except.error _ => none

/-- C8 counterexample: on a concrete idle instance the bag passed to attach
carries the host element under the key "modal", not "hostRef" — the bag the
claim describes (`mergedPropsSpec`) differs from the one the code builds at
the key "hostRef". -/
theorem attach_props_key_cex :
    ((attachProps sampleModal).map fun p => p "hostRef") = some none ∧
    ((attachProps sampleModal).map fun p => p "modal") =
      some (some (Val.elem 0)) ∧
    mergedPropsSpec sampleModal "hostRef" = some (Val.elem 0) ∧
    mergedProps sampleModal "hostRef" = none := by
  decide

/-- C8 amended: on a successful present the content is mounted with the
caller's componentProps spread first and the overlay's host element bound
under the key "modal" (every other key reads from componentProps), and the
marker class list passed to attach is exactly `["ion-page"]`. -/
theorem present_attach_props (m : Modal)
    (h1 : m.presented = false) (h2 : m.containerPresent = true) :
    ∃ r : PresentOk, m.present = Except.ok r ∧
      ∃ c : AttachCall, r.attach = some c ∧
        c.classes = ["ion-page"] ∧
        c.props "modal" = some (Val.elem m.el) ∧
        ∀ k : String, k ≠ "modal" → c.props k = m.componentProps k := by
  refine ⟨_, present_ok_eq m h1 h2, _, rfl, rfl, ?_, ?_⟩
  · simp [mergedProps]
  · intro k hk
    simp [mergedProps, hk]

/-- C8 amended witness: the attach call on a concrete instance. -/
theorem present_attach_props_witness :
    ∃ r : PresentOk, sampleModal.present = Except.ok r ∧
      ∃ c : AttachCall, r.attach = some c ∧
        c.classes = ["ion-page"] ∧
        c.props "modal" = some (Val.elem 0) ∧
        ∀ k : String, k ≠ "modal" → c.props k = sampleModal.componentProps k :=
  present_attach_props sampleModal rfl rfl

/-- C9: the host's z-index is the fixed base 20000 plus the instance's
overlayIndex, so of any two instances the one with the larger overlayIndex
renders with the strictly larger z-index. -/
theorem z_order (m : Modal) :
    m.hostData.zIndex = 20000 + m.overlayIndex ∧
    ∀ m2 : Modal, m.overlayIndex < m2.overlayIndex →
      m.hostData.zIndex < m2.hostData.zIndex := by
  refine ⟨rfl, ?_⟩
  intro m2 h
  simpa [Modal.hostData] using h

/-- C9 witness: two concrete instances with overlay indices 0 and 5. -/
theorem z_order_witness :
    sampleModal.hostData.zIndex <
      ({ sampleModal with overlayIndex := 5 } : Modal).hostData.zIndex :=
  (z_order sampleModal).2 { sampleModal with overlayIndex := 5 } (by decide)

/-- C10: the `ionDismiss` listener stops the event's propagation, prevents
its default action, and invokes `dismiss()` with no data and no role; the
call goes through the same idempotent guard, so on a non-presented instance
it dismisses nothing and emits nothing. -/
theorem on_dismiss_consumes (m : Modal) (ev : UIEvent) :
    (m.onDismiss ev).1.propagationStopped = true ∧
    (m.onDismiss ev).1.defaultPrevented = true ∧
    (m.onDismiss ev).2 = m.dismiss none none ∧
    (m.presented = false → (m.onDismiss ev).2 = ⟨m, false, [], false, none⟩) := by
  refine ⟨rfl, rfl, rfl, ?_⟩
  intro hp
  exact dismiss_noop_eq m none none hp

/-- C10 witness: the listener on a concrete unpresented instance and a fresh
event. -/
theorem on_dismiss_consumes_witness :
    (sampleModal.onDismiss ⟨false, false⟩).1.propagationStopped = true ∧
    (sampleModal.onDismiss ⟨false, false⟩).2 =
      ⟨sampleModal, false, [], false, none⟩ :=
  ⟨(on_dismiss_consumes sampleModal ⟨false, false⟩).1,
   (on_dismiss_consumes sampleModal ⟨false, false⟩).2.2.2 rfl⟩

end Ionic
